import Mathlib

/-!
Shallow embedding of the MLA laugh-detection core (`src/core/detector.py`,
`config.py`).  Floating-point scores are modelled as rationals; the per-frame
input to `detect_laugh` is modelled at the scoring boundary: a frame either
carries one `ScoredFrame` (the `laugh_score`/`confidence` pair produced by
`analyze_facial_expression`, the only feature data the temporal logic reads)
or `none` (no face detected by MediaPipe this frame).
-/

namespace MLA

/-- The numeric fields of `DetectionConfig` in `config.py`. -/
structure DetectionConfig where
  default_sensitivity : ℚ
  min_sensitivity : ℚ
  max_sensitivity : ℚ
  base_threshold : ℚ
  min_threshold : ℚ
  consecutive_frames_required : ℕ
  consecutive_frames_to_stop : ℕ
  history_size : ℕ
  smoothing_window : ℕ
  mouth_weight : ℚ
  eye_weight : ℚ
  cheek_weight : ℚ
deriving DecidableEq

/-- The default values from `config.py` (`DetectionConfig` dataclass). -/
def defaultConfig : DetectionConfig where
  default_sensitivity := 13/10
  min_sensitivity := 1/2
  max_sensitivity := 3
  base_threshold := 2/5
  min_threshold := 1/4
  consecutive_frames_required := 3
  consecutive_frames_to_stop := 5
  history_size := 20
  smoothing_window := 10
  mouth_weight := 2/5
  eye_weight := 3/10
  cheek_weight := 3/10

/-- The three geometric features computed per frame (`FeatureVector`). -/
structure FeatureVector where
  mouth_openness : ℚ
  eye_crinkle : ℚ
  cheek_movement : ℚ
deriving DecidableEq

/-- The weighted sum scaled by sensitivity, before any clamping
(`analyze_facial_expression`, the `laugh_score = (...) * self.sensitivity`
expression). -/
def rawScore (cfg : DetectionConfig) (sens : ℚ) (f : FeatureVector) : ℚ :=
  (f.mouth_openness * cfg.mouth_weight
    + (1 - f.eye_crinkle) * cfg.eye_weight
    + f.cheek_movement * cfg.cheek_weight) * sens

/-- The laugh score the code stores in the features dict:
`min(laugh_score, 1.0)` (only an upper clamp). -/
def laughScore (cfg : DetectionConfig) (sens : ℚ) (f : FeatureVector) : ℚ :=
  min (rawScore cfg sens f) 1

/-- Clamp to the unit interval. -/
def clamp01 (x : ℚ) : ℚ :=
  max (min x 1) 0

/-- The laugh score as the spec words it: `clamp01(raw_score)`.  Kept separate
from `laughScore` (which follows the source) for the refinement comparison. -/
def laughScoreSpec (cfg : DetectionConfig) (sens : ℚ) (f : FeatureVector) : ℚ :=
  clamp01 (rawScore cfg sens f)

/-- One frame after the scoring step: the `laugh_score` and `confidence`
entries of the features dict that `detect_laugh` reads. -/
structure ScoredFrame where
  laugh_score : ℚ
  confidence : ℚ
deriving DecidableEq

/-- One 3D landmark point (`[lm.x, lm.y, lm.z]`). -/
structure Vec3 where
  x : ℚ
  y : ℚ
  z : ℚ
deriving DecidableEq

/-- Pointwise sum of two landmark arrays. -/
def addLandmarks (a b : List Vec3) : List Vec3 :=
  List.zipWith (fun u v => ⟨u.x + v.x, u.y + v.y, u.z + v.z⟩) a b

/-- `np.mean(all_features, axis=0)`: index-wise arithmetic mean of a batch of
equally-shaped landmark arrays. -/
def elementwiseMean : List (List Vec3) → List Vec3
  | [] => []
  | l :: rest =>
      (rest.foldl addLandmarks l).map
        (fun v => ⟨v.x / (rest.length + 1), v.y / (rest.length + 1),
                   v.z / (rest.length + 1)⟩)

/-- The mutable state of a `LaughDetector` instance (fields set in
`__init__`). -/
structure DetectorState where
  laugh_history : List ℚ
  confidence_history : List ℚ
  is_laughing : Bool
  consecutive_laugh_frames : ℕ
  consecutive_non_laugh_frames : ℕ
  baseline_landmarks : Option (List Vec3)
  calibration_timestamp : Option ℕ
  sensitivity : ℚ
deriving DecidableEq

/-- Detector state right after `__init__` (histories empty, not laughing,
no calibration). -/
def initState (cfg : DetectionConfig) : DetectorState where
  laugh_history := []
  confidence_history := []
  is_laughing := false
  consecutive_laugh_frames := 0
  consecutive_non_laugh_frames := 0
  baseline_landmarks := none
  calibration_timestamp := none
  sensitivity := cfg.default_sensitivity

/-- The per-frame output (`DetectionResult` dataclass; the features dict
and landmark reference are omitted, the numeric fields are kept). -/
structure DetectionResult where
  is_laughing : Bool
  intensity : ℚ
  confidence : ℚ
  confidence_trend : ℚ
  consecutive_laugh_frames : ℕ
  consecutive_non_laugh_frames : ℕ
deriving DecidableEq

/-- `np.mean` of a list of rationals. -/
def listMean (l : List ℚ) : ℚ :=
  l.sum / l.length

/-- Python slice `l[-n:]`: the last `n` elements. -/
def lastN (n : ℕ) (l : List ℚ) : List ℚ :=
  l.drop (l.length - n)

/-- Python slice `l[-10:-5]` (used when `l` has at least 10 elements). -/
def midSlice (l : List ℚ) : List ℚ :=
  (l.drop (l.length - 10)).take 5

/-- History maintenance in `detect_laugh`: append the new score/confidence
pair to both lists and, when the laugh history then exceeds `history_size`,
pop the oldest element of both. -/
def pushTrim (cfg : DetectionConfig) (lh ch : List ℚ) (x y : ℚ) :
    List ℚ × List ℚ :=
  if cfg.history_size < (lh ++ [x]).length then
    ((lh ++ [x]).drop 1, (ch ++ [y]).drop 1)
  else
    (lh ++ [x], ch ++ [y])

/-- The laugh history after this frame's push (and possible eviction). -/
def newScores (cfg : DetectionConfig) (s : DetectorState) (f : ScoredFrame) :
    List ℚ :=
  (pushTrim cfg s.laugh_history s.confidence_history
    f.laugh_score f.confidence).1

/-- The confidence history after this frame's push (and possible eviction). -/
def newConfs (cfg : DetectionConfig) (s : DetectorState) (f : ScoredFrame) :
    List ℚ :=
  (pushTrim cfg s.laugh_history s.confidence_history
    f.laugh_score f.confidence).2

/-- `recent_trend`: `mean(l[-5:]) - mean(l[-10:-5])` when the history has at
least 10 entries, otherwise 0. -/
def recentTrend (l : List ℚ) : ℚ :=
  if 10 ≤ l.length then listMean (lastN 5 l) - listMean (midSlice l) else 0

/-- The smoothing used for both `avg_confidence` and `smoothed_score`: mean of
the last `w` entries when the history has at least `w` entries, otherwise the
current frame's raw value. -/
def smoothedVal (w : ℕ) (l : List ℚ) (raw : ℚ) : ℚ :=
  if w ≤ l.length then listMean (lastN w l) else raw

/-- `effective_threshold`: base threshold lowered by the confidence bonus
(`avg_confidence * 0.2`) and the trend bonus (`max(recent_trend * 2, 0)`),
floored at `min_threshold`. -/
def effectiveThreshold (cfg : DetectionConfig) (avgConf trend : ℚ) : ℚ :=
  max (cfg.base_threshold - avgConf * (1/5) - max (trend * 2) 0)
    cfg.min_threshold

/-- `recent_trend` for the current frame. -/
def frameTrend (cfg : DetectionConfig) (s : DetectorState) (f : ScoredFrame) :
    ℚ :=
  recentTrend (newScores cfg s f)

/-- `avg_confidence` for the current frame. -/
def frameAvgConf (cfg : DetectionConfig) (s : DetectorState)
    (f : ScoredFrame) : ℚ :=
  smoothedVal cfg.smoothing_window (newConfs cfg s f) f.confidence

/-- `smoothed_score` for the current frame. -/
def frameSmoothed (cfg : DetectionConfig) (s : DetectorState)
    (f : ScoredFrame) : ℚ :=
  smoothedVal cfg.smoothing_window (newScores cfg s f) f.laugh_score

/-- The effective threshold for the current frame. -/
def frameThreshold (cfg : DetectionConfig) (s : DetectorState)
    (f : ScoredFrame) : ℚ :=
  effectiveThreshold cfg (frameAvgConf cfg s f) (frameTrend cfg s f)

/-- The consecutive-frame counters after this qualifying frame: above
threshold increments the laugh counter and zeroes the other; at or below
does the opposite. -/
def newCounters (cfg : DetectionConfig) (s : DetectorState)
    (f : ScoredFrame) : ℕ × ℕ :=
  if frameThreshold cfg s f < frameSmoothed cfg s f then
    (s.consecutive_laugh_frames + 1, 0)
  else
    (0, s.consecutive_non_laugh_frames + 1)

/-- The hysteresis decision: when not laughing, require
`consecutive_laugh_frames ≥ consecutive_frames_required`; when laughing,
remain so while `consecutive_non_laugh_frames < consecutive_frames_to_stop`. -/
def newIsLaughing (cfg : DetectionConfig) (s : DetectorState)
    (f : ScoredFrame) : Bool :=
  if s.is_laughing then
    decide ((newCounters cfg s f).2 < cfg.consecutive_frames_to_stop)
  else
    decide (cfg.consecutive_frames_required ≤ (newCounters cfg s f).1)

/-- The face branch of `detect_laugh`: push into the histories, then, with at
least 5 entries, run the threshold comparison, counters and hysteresis and
report smoothed values; otherwise report the raw values with
`is_laughing = false` and leave the counters alone.  The returned state also
reflects `_track_laugh_state_changes`, which stores the result's
`is_laughing` back into the detector. -/
def detectFace (cfg : DetectionConfig) (s : DetectorState) (f : ScoredFrame) :
    DetectionResult × DetectorState :=
  if 5 ≤ (newScores cfg s f).length then
    ({ is_laughing := newIsLaughing cfg s f
       intensity := frameSmoothed cfg s f
       confidence := frameAvgConf cfg s f
       confidence_trend := frameTrend cfg s f
       consecutive_laugh_frames := (newCounters cfg s f).1
       consecutive_non_laugh_frames := (newCounters cfg s f).2 },
     { s with
       laugh_history := newScores cfg s f
       confidence_history := newConfs cfg s f
       consecutive_laugh_frames := (newCounters cfg s f).1
       consecutive_non_laugh_frames := (newCounters cfg s f).2
       is_laughing := newIsLaughing cfg s f })
  else
    ({ is_laughing := false
       intensity := f.laugh_score
       confidence := f.confidence
       confidence_trend := 0
       consecutive_laugh_frames := s.consecutive_laugh_frames
       consecutive_non_laugh_frames := s.consecutive_non_laugh_frames },
     { s with
       laugh_history := newScores cfg s f
       confidence_history := newConfs cfg s f
       is_laughing := false })

/-- `detect_laugh`: with no face, return the initial result (not laughing,
zero values, the pre-frame counters) and zero both stored counters; with a
face, run `detectFace`. -/
def detectLaugh (cfg : DetectionConfig) (s : DetectorState)
    (frame : Option ScoredFrame) : DetectionResult × DetectorState :=
  match frame with
  | none =>
      ({ is_laughing := false
         intensity := 0
         confidence := 0
         confidence_trend := 0
         consecutive_laugh_frames := s.consecutive_laugh_frames
         consecutive_non_laugh_frames := s.consecutive_non_laugh_frames },
       { s with
         consecutive_laugh_frames := 0
         consecutive_non_laugh_frames := 0 })
  | some f => detectFace cfg s f

/-- Fold `detect_laugh` over a frame sequence, keeping the final state. -/
def runFrames (cfg : DetectionConfig) (s : DetectorState)
    (frames : List (Option ScoredFrame)) : DetectorState :=
  frames.foldl (fun st fr => (detectLaugh cfg st fr).2) s

/-- Fold `detect_laugh` over a frame sequence, collecting every
`DetectionResult` in order together with the final state. -/
def runResults (cfg : DetectionConfig) (s : DetectorState) :
    List (Option ScoredFrame) → List DetectionResult × DetectorState
  | [] => ([], s)
  | fr :: rest =>
      let step := detectLaugh cfg s fr
      let restRun := runResults cfg step.2 rest
      (step.1 :: restRun.1, restRun.2)

/-- `reset_state`: clear both histories, stop laughing, zero both counters. -/
def reset_state (s : DetectorState) : DetectorState :=
  { s with
    laugh_history := []
    confidence_history := []
    is_laughing := false
    consecutive_laugh_frames := 0
    consecutive_non_laugh_frames := 0 }

/-- `set_sensitivity`: clamp to `[min_sensitivity, max_sensitivity]`. -/
def set_sensitivity (cfg : DetectionConfig) (s : DetectorState) (v : ℚ) :
    DetectorState :=
  { s with sensitivity := max cfg.min_sensitivity (min v cfg.max_sensitivity) }

/-- `calibrate`: an input element is `none` when it is falsy or unparsable
(the caught-and-skipped branch), `some a` when it parses to the landmark
array `a`.  An empty batch, or a batch with no valid element, fails and
changes nothing; otherwise the element-wise mean of the valid arrays becomes
the new baseline with a fresh timestamp (`now` models `datetime.now()`). -/
def calibrate (s : DetectorState) (batch : List (Option (List Vec3)))
    (now : ℕ) : Bool × DetectorState :=
  if batch.isEmpty then
    (false, s)
  else if (batch.filterMap id).isEmpty then
    (false, s)
  else
    (true,
     { s with
       baseline_landmarks := some (elementwiseMean (batch.filterMap id))
       calibration_timestamp := some now })

/-- A frame scoring 0 with confidence 0. -/
def lowFrame : ScoredFrame := ⟨0, 0⟩

/-- A frame scoring 1/2 (above the default base threshold 2/5) with
confidence 0. -/
def midFrame : ScoredFrame := ⟨1/2, 0⟩

/-- Four low frames to prime the history past the cold start, then three
above-threshold frames: enough to enter `LAUGHING` under the defaults. -/
def enterSeq : List (Option ScoredFrame) :=
  List.replicate 4 (some lowFrame) ++ List.replicate 3 (some midFrame)

/-- `enterSeq` followed by four at-or-below-threshold frames. -/
def stay4Seq : List (Option ScoredFrame) :=
  enterSeq ++ List.replicate 4 (some lowFrame)

/-- `enterSeq` followed by five at-or-below-threshold frames. -/
def exit5Seq : List (Option ScoredFrame) :=
  enterSeq ++ List.replicate 5 (some lowFrame)

/-- The history invariant of the two parallel buffers: equal lengths, both
bounded by `history_size`. -/
def histInv (cfg : DetectionConfig) (s : DetectorState) : Prop :=
  s.laugh_history.length = s.confidence_history.length ∧
  s.laugh_history.length ≤ cfg.history_size

/-- Two detector states that agree on everything except the calibration
baseline and its timestamp. -/
def agreeExceptCalib (s t : DetectorState) : Prop :=
  s.laugh_history = t.laugh_history ∧
  s.confidence_history = t.confidence_history ∧
  s.is_laughing = t.is_laughing ∧
  s.consecutive_laugh_frames = t.consecutive_laugh_frames ∧
  s.consecutive_non_laugh_frames = t.consecutive_non_laugh_frames ∧
  s.sensitivity = t.sensitivity

/-- A detector state whose histories already hold five frames (past the
cold start). -/
def primedState : DetectorState :=
  { initState defaultConfig with
    laugh_history := List.replicate 5 0
    confidence_history := List.replicate 5 0 }

/-- A freshly constructed detector that has additionally been calibrated. -/
def calibratedState : DetectorState :=
  { initState defaultConfig with
    baseline_landmarks := some [⟨0, 0, 0⟩]
    calibration_timestamp := some 5 }

/-- A short frame sequence with one face frame and one no-face frame. -/
def witnessFrames : List (Option ScoredFrame) :=
  [some midFrame, none]

/-- One concrete landmark array. -/
def sampleLandmarks : List Vec3 :=
  [⟨1, 2, 3⟩]

/-- C3: on a frame with no detected face, `detect_laugh` zeroes both stored
consecutive-frame counters and leaves the stored `is_laughing` flag, the
score history and the confidence history unchanged. -/
theorem no_face_resets_counters_only (cfg : DetectionConfig)
    (s : DetectorState) :
    (detectLaugh cfg s none).2.consecutive_laugh_frames = 0 ∧
    (detectLaugh cfg s none).2.consecutive_non_laugh_frames = 0 ∧
    (detectLaugh cfg s none).2.is_laughing = s.is_laughing ∧
    (detectLaugh cfg s none).2.laugh_history = s.laugh_history ∧
    (detectLaugh cfg s none).2.confidence_history = s.confidence_history := by
  simp [detectLaugh]

/-- C10: on a frame with no detected face, the returned result reports
`is_laughing = false` whatever the stored state says, and its counter fields
carry the pre-frame counter values even though the stored counters are
zeroed. -/
theorem no_face_result_uses_prior_counters (cfg : DetectionConfig)
    (s : DetectorState) :
    (detectLaugh cfg s none).1.is_laughing = false ∧
    (detectLaugh cfg s none).1.consecutive_laugh_frames
      = s.consecutive_laugh_frames ∧
    (detectLaugh cfg s none).1.consecutive_non_laugh_frames
      = s.consecutive_non_laugh_frames ∧
    (detectLaugh cfg s none).2.consecutive_laugh_frames = 0 ∧
    (detectLaugh cfg s none).2.consecutive_non_laugh_frames = 0 := by
  simp [detectLaugh]

/-- C4: the effective threshold is
`max(base − avg_confidence*0.2 − max(trend*2, 0), min_threshold)`; it never
falls below `min_threshold` (for the threshold of any qualifying frame in
particular), whose default is 1/4. -/
theorem effective_threshold_floored (cfg : DetectionConfig) (c t : ℚ)
    (h0 : 0 ≤ c) (h1 : c ≤ 1) (s : DetectorState) (f : ScoredFrame) :
    effectiveThreshold cfg c t
      = max (cfg.base_threshold - c * (1/5) - max (t * 2) 0)
          cfg.min_threshold ∧
    cfg.min_threshold ≤ effectiveThreshold cfg c t ∧
    cfg.min_threshold ≤ frameThreshold cfg s f ∧
    defaultConfig.min_threshold = 1/4 := by
  refine ⟨rfl, le_max_right _ _, ?_, rfl⟩
  simp only [frameThreshold, effectiveThreshold]
  exact le_max_right _ _

theorem effective_threshold_floored_witness :
    ((0:ℚ) ≤ 1/2 ∧ (1:ℚ)/2 ≤ 1) ∧
    (effectiveThreshold defaultConfig (1/2) 0
        = max (defaultConfig.base_threshold - (1/2) * (1/5)
            - max ((0:ℚ) * 2) 0) defaultConfig.min_threshold ∧
      defaultConfig.min_threshold ≤ effectiveThreshold defaultConfig (1/2) 0 ∧
      defaultConfig.min_threshold
        ≤ frameThreshold defaultConfig (initState defaultConfig) lowFrame ∧
      defaultConfig.min_threshold = 1/4) :=
  ⟨⟨by norm_num, by norm_num⟩,
    effective_threshold_floored defaultConfig (1/2) 0 (by norm_num)
      (by norm_num) (initState defaultConfig) lowFrame⟩

/-- C2: on a face frame after which the history still holds fewer than five
entries, the result reports `is_laughing = false` whatever the scores are,
and neither the stored nor the reported counters change. -/
theorem cold_start_conservative (cfg : DetectionConfig) (s : DetectorState)
    (f : ScoredFrame) (h : (newScores cfg s f).length < 5) :
    (detectLaugh cfg s (some f)).1.is_laughing = false ∧
    (detectLaugh cfg s (some f)).2.consecutive_laugh_frames
      = s.consecutive_laugh_frames ∧
    (detectLaugh cfg s (some f)).2.consecutive_non_laugh_frames
      = s.consecutive_non_laugh_frames ∧
    (detectLaugh cfg s (some f)).1.consecutive_laugh_frames
      = s.consecutive_laugh_frames ∧
    (detectLaugh cfg s (some f)).1.consecutive_non_laugh_frames
      = s.consecutive_non_laugh_frames := by
  have h' : ¬ 5 ≤ (newScores cfg s f).length := by omega
  simp [detectLaugh, detectFace, h']

theorem cold_start_conservative_witness :
    (newScores defaultConfig (initState defaultConfig) midFrame).length < 5 ∧
    ((detectLaugh defaultConfig (initState defaultConfig)
        (some midFrame)).1.is_laughing = false ∧
      (detectLaugh defaultConfig (initState defaultConfig)
          (some midFrame)).2.consecutive_laugh_frames
        = (initState defaultConfig).consecutive_laugh_frames ∧
      (detectLaugh defaultConfig (initState defaultConfig)
          (some midFrame)).2.consecutive_non_laugh_frames
        = (initState defaultConfig).consecutive_non_laugh_frames ∧
      (detectLaugh defaultConfig (initState defaultConfig)
          (some midFrame)).1.consecutive_laugh_frames
        = (initState defaultConfig).consecutive_laugh_frames ∧
      (detectLaugh defaultConfig (initState defaultConfig)
          (some midFrame)).1.consecutive_non_laugh_frames
        = (initState defaultConfig).consecutive_non_laugh_frames) :=
  ⟨by norm_num [newScores, pushTrim, initState, defaultConfig],
    cold_start_conservative defaultConfig (initState defaultConfig) midFrame
      (by norm_num [newScores, pushTrim, initState, defaultConfig])⟩

/-- C7: on a qualifying face frame (history length at least 5 after the
push), the result reports the smoothed score as `intensity`, the smoothed
confidence as `confidence` and the recent trend as `confidence_trend`, where
the smoothed values fall back to the frame's raw values below
`smoothing_window` entries and the trend is `mean(last 5) − mean(l[-10:-5])`
from 10 entries on and 0 before. -/
theorem smoothed_values_reported (cfg : DetectionConfig) (s : DetectorState)
    (f : ScoredFrame) (h5 : 5 ≤ (newScores cfg s f).length) :
    (detectLaugh cfg s (some f)).1.intensity = frameSmoothed cfg s f ∧
    frameSmoothed cfg s f
      = (if cfg.smoothing_window ≤ (newScores cfg s f).length then
          listMean (lastN cfg.smoothing_window (newScores cfg s f))
        else f.laugh_score) ∧
    (detectLaugh cfg s (some f)).1.confidence = frameAvgConf cfg s f ∧
    frameAvgConf cfg s f
      = (if cfg.smoothing_window ≤ (newConfs cfg s f).length then
          listMean (lastN cfg.smoothing_window (newConfs cfg s f))
        else f.confidence) ∧
    (detectLaugh cfg s (some f)).1.confidence_trend = frameTrend cfg s f ∧
    frameTrend cfg s f
      = (if 10 ≤ (newScores cfg s f).length then
          listMean (lastN 5 (newScores cfg s f))
            - listMean (midSlice (newScores cfg s f))
        else 0) := by
  refine ⟨?_, rfl, ?_, rfl, ?_, rfl⟩ <;> simp [detectLaugh, detectFace, h5]

theorem smoothed_values_reported_witness :
    5 ≤ (newScores defaultConfig primedState midFrame).length ∧
    ((detectLaugh defaultConfig primedState (some midFrame)).1.intensity
        = frameSmoothed defaultConfig primedState midFrame ∧
      frameSmoothed defaultConfig primedState midFrame
        = (if defaultConfig.smoothing_window
              ≤ (newScores defaultConfig primedState midFrame).length then
            listMean (lastN defaultConfig.smoothing_window
              (newScores defaultConfig primedState midFrame))
          else midFrame.laugh_score) ∧
      (detectLaugh defaultConfig primedState (some midFrame)).1.confidence
        = frameAvgConf defaultConfig primedState midFrame ∧
      frameAvgConf defaultConfig primedState midFrame
        = (if defaultConfig.smoothing_window
              ≤ (newConfs defaultConfig primedState midFrame).length then
            listMean (lastN defaultConfig.smoothing_window
              (newConfs defaultConfig primedState midFrame))
          else midFrame.confidence) ∧
      (detectLaugh defaultConfig primedState
          (some midFrame)).1.confidence_trend
        = frameTrend defaultConfig primedState midFrame ∧
      frameTrend defaultConfig primedState midFrame
        = (if 10 ≤ (newScores defaultConfig primedState midFrame).length then
            listMean (lastN 5 (newScores defaultConfig primedState midFrame))
              - listMean (midSlice
                  (newScores defaultConfig primedState midFrame))
          else 0)) :=
  ⟨by norm_num [newScores, pushTrim, primedState, initState, defaultConfig],
    smoothed_values_reported defaultConfig primedState midFrame
      (by norm_num [newScores, pushTrim, primedState, initState,
        defaultConfig])⟩

/-- C1: on every qualifying frame the hysteresis is asymmetric: when not
laughing, the returned and stored flag becomes true iff the laugh counter has
reached `consecutive_frames_required`; when laughing, it stays true iff the
non-laugh counter is still below `consecutive_frames_to_stop`.  Concretely,
under the defaults, three above-threshold frames enter the laughing state,
four at-or-below-threshold frames do not exit it, and a fifth does. -/
theorem laugh_hysteresis_asymmetric (cfg : DetectionConfig)
    (s : DetectorState) (f : ScoredFrame)
    (h5 : 5 ≤ (newScores cfg s f).length) :
    ((s.is_laughing = false →
        ((detectLaugh cfg s (some f)).1.is_laughing = true ↔
          cfg.consecutive_frames_required ≤
            (detectLaugh cfg s (some f)).2.consecutive_laugh_frames)) ∧
      (s.is_laughing = true →
        ((detectLaugh cfg s (some f)).1.is_laughing = true ↔
          (detectLaugh cfg s (some f)).2.consecutive_non_laugh_frames <
            cfg.consecutive_frames_to_stop)) ∧
      (detectLaugh cfg s (some f)).2.is_laughing
        = (detectLaugh cfg s (some f)).1.is_laughing) ∧
    (runFrames defaultConfig (initState defaultConfig) enterSeq).is_laughing
      = true ∧
    (runFrames defaultConfig (initState defaultConfig) stay4Seq).is_laughing
      = true ∧
    (runFrames defaultConfig (initState defaultConfig) exit5Seq).is_laughing
      = false := by
  refine ⟨⟨?_, ?_, ?_⟩, ?_, ?_, ?_⟩
  · intro hns
    simp [detectLaugh, detectFace, h5, newIsLaughing, hns]
  · intro hl
    simp [detectLaugh, detectFace, h5, newIsLaughing, hl]
  · simp [detectLaugh, detectFace, h5]
  all_goals
    norm_num [runFrames, detectLaugh, detectFace, newScores, newConfs,
      pushTrim, newCounters, newIsLaughing, frameThreshold, frameSmoothed,
      frameAvgConf, frameTrend, smoothedVal, recentTrend, effectiveThreshold,
      listMean, lastN, midSlice, enterSeq, stay4Seq, exit5Seq, lowFrame,
      midFrame, initState, defaultConfig, List.replicate, List.foldl]

theorem laugh_hysteresis_asymmetric_witness :
    5 ≤ (newScores defaultConfig primedState lowFrame).length ∧
    (((primedState.is_laughing = false →
        ((detectLaugh defaultConfig primedState
            (some lowFrame)).1.is_laughing = true ↔
          defaultConfig.consecutive_frames_required ≤
            (detectLaugh defaultConfig primedState
              (some lowFrame)).2.consecutive_laugh_frames)) ∧
      (primedState.is_laughing = true →
        ((detectLaugh defaultConfig primedState
            (some lowFrame)).1.is_laughing = true ↔
          (detectLaugh defaultConfig primedState
              (some lowFrame)).2.consecutive_non_laugh_frames <
            defaultConfig.consecutive_frames_to_stop)) ∧
      (detectLaugh defaultConfig primedState (some lowFrame)).2.is_laughing
        = (detectLaugh defaultConfig primedState
            (some lowFrame)).1.is_laughing) ∧
    (runFrames defaultConfig (initState defaultConfig) enterSeq).is_laughing
      = true ∧
    (runFrames defaultConfig (initState defaultConfig) stay4Seq).is_laughing
      = true ∧
    (runFrames defaultConfig (initState defaultConfig) exit5Seq).is_laughing
      = false) :=
  ⟨by norm_num [newScores, pushTrim, primedState, initState, defaultConfig],
    laugh_hysteresis_asymmetric defaultConfig primedState lowFrame
      (by norm_num [newScores, pushTrim, primedState, initState,
        defaultConfig])⟩

/-- C5 counterexample: the code's laugh score is only clamped from above
(`min(laugh_score, 1.0)`), so with `mouth_openness = 0 ≥ 0`,
`eye_crinkle = 0` and `cheek_movement = −10` the stored score is negative,
while the claimed `clamp01` form would give 0: the score does not always lie
in `[0, 1]`. -/
theorem laugh_score_below_zero :
    laughScore defaultConfig defaultConfig.default_sensitivity
        ⟨0, 0, -10⟩ < 0 ∧
    laughScoreSpec defaultConfig defaultConfig.default_sensitivity
        ⟨0, 0, -10⟩ = 0 := by
  constructor <;>
    norm_num [laughScore, laughScoreSpec, rawScore, clamp01, defaultConfig]

/-- C5 amended: the scoring step stores `min(raw_score, 1)`: the score never
exceeds 1, and it agrees with the claimed `clamp01` form whenever the raw
weighted score is nonnegative (the lower clamp at 0 is absent). -/
theorem laugh_score_upper_clamp (cfg : DetectionConfig) (sens : ℚ)
    (f : FeatureVector) :
    laughScore cfg sens f = min (rawScore cfg sens f) 1 ∧
    laughScore cfg sens f ≤ 1 ∧
    (0 ≤ rawScore cfg sens f →
      laughScore cfg sens f = laughScoreSpec cfg sens f) := by
  refine ⟨rfl, min_le_right _ _, fun h => ?_⟩
  simp only [laughScore, laughScoreSpec, clamp01]
  exact (max_eq_left (le_min h zero_le_one)).symm

theorem laugh_score_upper_clamp_witness :
    (0:ℚ) ≤ rawScore defaultConfig 1 ⟨1, 0, 0⟩ ∧
    laughScore defaultConfig 1 ⟨1, 0, 0⟩
      = laughScoreSpec defaultConfig 1 ⟨1, 0, 0⟩ :=
  ⟨by norm_num [rawScore, defaultConfig],
    (laugh_score_upper_clamp defaultConfig 1 ⟨1, 0, 0⟩).2.2
      (by norm_num [rawScore, defaultConfig])⟩

theorem pushTrim_length_eq (cfg : DetectionConfig) (lh ch : List ℚ) (x y : ℚ)
    (heq : lh.length = ch.length) :
    (pushTrim cfg lh ch x y).1.length = (pushTrim cfg lh ch x y).2.length := by
  unfold pushTrim
  split <;> simp [heq]

theorem pushTrim_length_le (cfg : DetectionConfig) (lh ch : List ℚ) (x y : ℚ)
    (hle : lh.length ≤ cfg.history_size) :
    (pushTrim cfg lh ch x y).1.length ≤ cfg.history_size := by
  unfold pushTrim
  split <;> simp_all

theorem detectFace_snd_histories (cfg : DetectionConfig) (s : DetectorState)
    (f : ScoredFrame) :
    (detectFace cfg s f).2.laugh_history = newScores cfg s f ∧
    (detectFace cfg s f).2.confidence_history = newConfs cfg s f := by
  unfold detectFace
  split <;> simp

/-- C6: every operation preserves the history invariant (the score and
confidence buffers have equal length, bounded by `history_size`), and a face
frame arriving with a full buffer evicts the oldest pair (FIFO). -/
theorem history_parallel_bounded (cfg : DetectionConfig) (s : DetectorState)
    (hinv : histInv cfg s) (hH : 1 ≤ cfg.history_size) :
    (∀ frame, histInv cfg (detectLaugh cfg s frame).2) ∧
    histInv cfg (reset_state s) ∧
    (∀ batch now, histInv cfg (calibrate s batch now).2) ∧
    (∀ v, histInv cfg (set_sensitivity cfg s v)) ∧
    (∀ f : ScoredFrame, s.laugh_history.length = cfg.history_size →
      (detectLaugh cfg s (some f)).2.laugh_history
        = s.laugh_history.drop 1 ++ [f.laugh_score] ∧
      (detectLaugh cfg s (some f)).2.confidence_history
        = s.confidence_history.drop 1 ++ [f.confidence]) := by
  obtain ⟨heq, hle⟩ := hinv
  refine ⟨?_, ?_, ?_, ?_, ?_⟩
  · intro frame
    cases frame with
    | none => exact ⟨by simpa [detectLaugh] using heq,
        by simpa [detectLaugh] using hle⟩
    | some f =>
        obtain ⟨hl, hc⟩ := detectFace_snd_histories cfg s f
        show histInv cfg (detectFace cfg s f).2
        rw [histInv, hl, hc, newScores, newConfs]
        exact ⟨pushTrim_length_eq cfg _ _ _ _ heq,
          pushTrim_length_le cfg _ _ _ _ hle⟩
  · exact ⟨by simp [reset_state], by simp [reset_state]⟩
  · intro batch now
    unfold calibrate
    split_ifs <;> exact ⟨heq, hle⟩
  · intro v
    exact ⟨heq, hle⟩
  · intro f hfull
    obtain ⟨hl, hc⟩ := detectFace_snd_histories cfg s f
    have hcond : cfg.history_size < (s.laugh_history ++ [f.laugh_score]).length := by
      simp [hfull]
    have h1 : 1 ≤ s.laugh_history.length := by omega
    have h1c : 1 ≤ s.confidence_history.length := by omega
    constructor
    · show (detectFace cfg s f).2.laugh_history = _
      rw [hl, newScores, pushTrim, if_pos hcond]
      exact List.drop_append_of_le_length h1
    · show (detectFace cfg s f).2.confidence_history = _
      rw [hc, newConfs, pushTrim, if_pos hcond]
      exact List.drop_append_of_le_length h1c

theorem history_parallel_bounded_witness :
    (histInv defaultConfig (initState defaultConfig) ∧
      1 ≤ defaultConfig.history_size) ∧
    ((∀ frame,
        histInv defaultConfig
          (detectLaugh defaultConfig (initState defaultConfig) frame).2) ∧
      histInv defaultConfig (reset_state (initState defaultConfig)) ∧
      (∀ batch now,
        histInv defaultConfig
          (calibrate (initState defaultConfig) batch now).2) ∧
      (∀ v,
        histInv defaultConfig
          (set_sensitivity defaultConfig (initState defaultConfig) v)) ∧
      (∀ f : ScoredFrame,
        (initState defaultConfig).laugh_history.length
          = defaultConfig.history_size →
        (detectLaugh defaultConfig (initState defaultConfig)
            (some f)).2.laugh_history
          = (initState defaultConfig).laugh_history.drop 1
              ++ [f.laugh_score] ∧
        (detectLaugh defaultConfig (initState defaultConfig)
            (some f)).2.confidence_history
          = (initState defaultConfig).confidence_history.drop 1
              ++ [f.confidence])) :=
  ⟨⟨⟨rfl, by norm_num [initState, defaultConfig]⟩,
      by norm_num [defaultConfig]⟩,
    history_parallel_bounded defaultConfig (initState defaultConfig)
      ⟨rfl, by norm_num [initState, defaultConfig]⟩
      (by norm_num [defaultConfig])⟩

/-- C8: `calibrate` fails (returns false) and leaves the whole detector state
unchanged when the batch is empty or no element parses; with at least one
valid landmark array it stores the element-wise mean as the new baseline,
records the fresh timestamp and returns true. -/
theorem calibrate_atomic (s : DetectorState)
    (batch : List (Option (List Vec3))) (now : ℕ) :
    (batch.filterMap id = [] →
      calibrate s batch now = (false, s)) ∧
    (batch.filterMap id ≠ [] →
      calibrate s batch now =
        (true,
          { s with
            baseline_landmarks :=
              some (elementwiseMean (batch.filterMap id))
            calibration_timestamp := some now })) := by
  constructor
  · intro h
    have hfm : (batch.filterMap id).isEmpty = true := by simp [h]
    unfold calibrate
    split_ifs <;> rfl
  · intro h
    have hfm : ¬ (batch.filterMap id).isEmpty = true := by
      simpa [List.isEmpty_iff] using h
    have hb : ¬ batch.isEmpty = true := by
      intro hb1
      exact h (by simp [List.isEmpty_iff.mp hb1])
    unfold calibrate
    split_ifs <;> rfl

theorem calibrate_atomic_witness :
    (([] : List (Option (List Vec3))).filterMap id = [] ∧
      calibrate calibratedState [] 7 = (false, calibratedState)) ∧
    ([some sampleLandmarks].filterMap id ≠ [] ∧
      calibrate calibratedState [some sampleLandmarks] 7 =
        (true,
          { calibratedState with
            baseline_landmarks :=
              some (elementwiseMean ([some sampleLandmarks].filterMap id))
            calibration_timestamp := some 7 })) :=
  ⟨⟨rfl, (calibrate_atomic calibratedState [] 7).1 rfl⟩,
    ⟨by simp, (calibrate_atomic calibratedState [some sampleLandmarks] 7).2
      (by simp)⟩⟩

theorem detectLaugh_calib_agnostic (cfg : DetectionConfig)
    (s t : DetectorState) (h : agreeExceptCalib s t)
    (fr : Option ScoredFrame) :
    (detectLaugh cfg s fr).1 = (detectLaugh cfg t fr).1 ∧
    agreeExceptCalib (detectLaugh cfg s fr).2 (detectLaugh cfg t fr).2 ∧
    (detectLaugh cfg s fr).2.baseline_landmarks = s.baseline_landmarks ∧
    (detectLaugh cfg s fr).2.calibration_timestamp
      = s.calibration_timestamp := by
  obtain ⟨h1, h2, h3, h4, h5, h6⟩ := h
  cases fr with
  | none =>
      refine ⟨?_, ⟨?_, ?_, ?_, ?_, ?_, ?_⟩, rfl, rfl⟩ <;>
        simp [detectLaugh, h1, h2, h3, h4, h5, h6]
  | some f =>
      have hs : newScores cfg s f = newScores cfg t f := by
        simp [newScores, h1, h2]
      have hc : newConfs cfg s f = newConfs cfg t f := by
        simp [newConfs, h1, h2]
      have htr : frameTrend cfg s f = frameTrend cfg t f := by
        simp [frameTrend, hs]
      have hav : frameAvgConf cfg s f = frameAvgConf cfg t f := by
        simp [frameAvgConf, hc]
      have hsm : frameSmoothed cfg s f = frameSmoothed cfg t f := by
        simp [frameSmoothed, hs]
      have hth : frameThreshold cfg s f = frameThreshold cfg t f := by
        simp [frameThreshold, hav, htr]
      have hcnt : newCounters cfg s f = newCounters cfg t f := by
        simp [newCounters, hth, hsm, h4, h5]
      have hisl : newIsLaughing cfg s f = newIsLaughing cfg t f := by
        simp [newIsLaughing, hcnt, h3]
      show (detectFace cfg s f).1 = (detectFace cfg t f).1 ∧
        agreeExceptCalib (detectFace cfg s f).2 (detectFace cfg t f).2 ∧
        (detectFace cfg s f).2.baseline_landmarks = s.baseline_landmarks ∧
        (detectFace cfg s f).2.calibration_timestamp
          = s.calibration_timestamp
      unfold detectFace
      rw [hs, hc, hcnt, hisl, htr, hav, hsm, h4, h5]
      split <;>
        exact ⟨rfl, ⟨rfl, rfl, rfl, rfl, rfl, h6⟩, rfl, rfl⟩

/-- C9: the calibration baseline never influences detection: two detector
states that differ only in the stored baseline and calibration timestamp
produce identical per-frame results on any frame sequence and end in states
that again differ only in those fields, which the run leaves untouched on
both sides. -/
theorem calibration_noninterference (cfg : DetectionConfig)
    (s t : DetectorState) (h : agreeExceptCalib s t)
    (frames : List (Option ScoredFrame)) :
    (runResults cfg s frames).1 = (runResults cfg t frames).1 ∧
    agreeExceptCalib (runResults cfg s frames).2
      (runResults cfg t frames).2 ∧
    (runResults cfg s frames).2.baseline_landmarks
      = s.baseline_landmarks ∧
    (runResults cfg s frames).2.calibration_timestamp
      = s.calibration_timestamp ∧
    (runResults cfg t frames).2.baseline_landmarks
      = t.baseline_landmarks ∧
    (runResults cfg t frames).2.calibration_timestamp
      = t.calibration_timestamp := by
  induction frames generalizing s t with
  | nil => exact ⟨rfl, h, rfl, rfl, rfl, rfl⟩
  | cons fr rest ih =>
      obtain ⟨hr, hag, hbs, hts⟩ := detectLaugh_calib_agnostic cfg s t h fr
      obtain ⟨hbt, htt⟩ :=
        ((detectLaugh_calib_agnostic cfg t s
          ⟨h.1.symm, h.2.1.symm, h.2.2.1.symm, h.2.2.2.1.symm,
            h.2.2.2.2.1.symm, h.2.2.2.2.2.symm⟩ fr).2.2 : _)
      obtain ⟨ihr, ihag, ihbs, ihts, ihbt, ihtt⟩ :=
        ih (detectLaugh cfg s fr).2 (detectLaugh cfg t fr).2 hag
      refine ⟨?_, ihag, ?_, ?_, ?_, ?_⟩
      · simp [runResults, hr, ihr]
      · simpa [runResults, ihbs] using hbs
      · simpa [runResults, ihts] using hts
      · simpa [runResults, ihbt] using hbt
      · simpa [runResults, ihtt] using htt

theorem calibration_noninterference_witness :
    agreeExceptCalib (initState defaultConfig) calibratedState ∧
    ((runResults defaultConfig (initState defaultConfig) witnessFrames).1
        = (runResults defaultConfig calibratedState witnessFrames).1 ∧
      agreeExceptCalib
        (runResults defaultConfig (initState defaultConfig)
          witnessFrames).2
        (runResults defaultConfig calibratedState witnessFrames).2 ∧
      (runResults defaultConfig (initState defaultConfig)
          witnessFrames).2.baseline_landmarks
        = (initState defaultConfig).baseline_landmarks ∧
      (runResults defaultConfig (initState defaultConfig)
          witnessFrames).2.calibration_timestamp
        = (initState defaultConfig).calibration_timestamp ∧
      (runResults defaultConfig calibratedState
          witnessFrames).2.baseline_landmarks
        = calibratedState.baseline_landmarks ∧
      (runResults defaultConfig calibratedState
          witnessFrames).2.calibration_timestamp
        = calibratedState.calibration_timestamp) :=
  ⟨⟨rfl, rfl, rfl, rfl, rfl, rfl⟩,
    calibration_noninterference defaultConfig (initState defaultConfig)
      calibratedState ⟨rfl, rfl, rfl, rfl, rfl, rfl⟩ witnessFrames⟩

end MLA
